import Mathlib

/-!
# Verification of the Kacky watcher reconciliation core

This file gives a shallow embedding, in Lean 4, of the state-reconciliation
core of the Kacky watcher (`watcher_state.py`, `watcher_core.py`, and the
legacy single-file variant `kacky_watcher.py`), and proves or refutes the
specification's testable properties against it.

Python dictionaries are modelled as association lists (`List (K × V)`) with
Python's update semantics: updating an existing key replaces its value in
place, a new key is appended at the end.  Python sets of integers/strings are
modelled as duplicate-free lists with insertion order.  Timestamps
(`time.time()` floats) are modelled as integers, which is faithful for the
integer-second arithmetic the code performs on them.  The few floating-point
operations in `update_server_uptime` (division by `60.0`, Python's
banker's-rounding `round`, and the `* 0.95` / `* 1.05` comparisons) are
modelled by exact integer/rational arithmetic (`20 * x ≥ 19 * y` for
`x ≥ y * 0.95`, and round-half-to-even on exact sixtieths); at every input
considered in the theorems below the float computation and the exact
computation agree, since the inputs are far from representation boundaries.
-/

/-- Lookup in an association list (Python `d.get(k)` / `d[k]`). -/
def dget {K V : Type} [DecidableEq K] (l : List (K × V)) (k : K) : Option V :=
  match l with
  | [] => none
  | (a, b) :: t => if a = k then some b else dget t k

/-- Key membership (Python `k in d`). -/
def dmem {K V : Type} [DecidableEq K] (l : List (K × V)) (k : K) : Prop :=
  (dget l k).isSome = true

instance {K V : Type} [DecidableEq K] (l : List (K × V)) (k : K) :
    Decidable (dmem l k) := by unfold dmem; infer_instance

/-- Store `d[k] = v` with Python dict semantics: replace in place if the key
exists, otherwise append at the end. -/
def dset {K V : Type} [DecidableEq K] (l : List (K × V)) (k : K) (v : V) :
    List (K × V) :=
  match l with
  | [] => [(k, v)]
  | (a, b) :: t => if a = k then (a, v) :: t else (a, b) :: dset t k v

/-- Delete a key (Python `d.pop(k, None)` / `del d[k]`). -/
def ddel {K V : Type} [DecidableEq K] (l : List (K × V)) (k : K) :
    List (K × V) :=
  match l with
  | [] => []
  | (a, b) :: t => if a = k then t else (a, b) :: ddel t k

/-- Add an element to a set-as-list (Python `s.add(x)`). -/
def sadd {A : Type} [DecidableEq A] (l : List A) (x : A) : List A :=
  if x ∈ l then l else l ++ [x]

/-- Remove an element from a set-as-list (Python `s.discard(x)`). -/
def sdel {A : Type} [DecidableEq A] (l : List A) (x : A) : List A :=
  l.filter (fun y => y ≠ x)

/-- The state object of `watcher_state.py` (`WatcherState.__init__`,
lines 20-50).  Map identifiers are `Int` (Python `int(...)` results),
timestamps and second counts are `Int`. -/
structure WatcherState where
  live_duration_seconds : Int
  eta_seconds_by_map : List (Int × Int)
  server_by_map : List (Int × String)
  live_until_by_map : List (Int × Int)
  live_servers_by_map : List (Int × List String)
  upcoming_by_map : List (Int × List (String × Int))
  notified_live : List Int
  server_uptime_seconds : List (String × Int)
  deriving DecidableEq, Repr

/-- The seeded per-server uptime defaults of `WatcherState.__init__`
(lines 44-50): servers 1-4 get 600 s, 5-8 get 780 s, 9-10 get 900 s. -/
def defaultUptimes : List (String × Int) :=
  [("Server 1", 600), ("Server 2", 600), ("Server 3", 600), ("Server 4", 600),
   ("Server 5", 780), ("Server 6", 780), ("Server 7", 780), ("Server 8", 780),
   ("Server 9", 900), ("Server 10", 900)]

/-- `WatcherState(live_duration_seconds)` (lines 20-50). -/
def WatcherState.mkInitial (live_duration_seconds : Int) : WatcherState :=
  { live_duration_seconds := live_duration_seconds
    eta_seconds_by_map := []
    server_by_map := []
    live_until_by_map := []
    live_servers_by_map := []
    upcoming_by_map := []
    notified_live := []
    server_uptime_seconds := defaultUptimes }

/-- Apply a function to every value of an association list, keeping keys. -/
def mapValues {K V W : Type} (f : V → W) (l : List (K × V)) : List (K × W) :=
  l.map (fun p => (p.1, f p.2))

/-- `max(0, v - d)`, the floored decrement of `countdown_etas`. -/
def decFloor (d v : Int) : Int := max 0 (v - d)

/-- `WatcherState.countdown_etas` (lines 168-184): every tracked ETA and
every per-server upcoming ETA is decremented by `d`, floored at zero.
The in-place per-key loop of the source is a value-wise map. -/
def WatcherState.countdown_etas (st : WatcherState) (d : Int) : WatcherState :=
  { st with
    eta_seconds_by_map := mapValues (decFloor d) st.eta_seconds_by_map
    upcoming_by_map :=
      mapValues (fun items => mapValues (decFloor d) items) st.upcoming_by_map }

theorem dget_mapValues {K V W : Type} [DecidableEq K] (f : V → W)
    (l : List (K × V)) (k : K) :
    dget (mapValues f l) k = (dget l k).map f := by
  induction l with
  | nil => rfl
  | cons h t ih =>
      obtain ⟨a, b⟩ := h
      show dget ((a, f b) :: mapValues f t) k = _
      by_cases hk : a = k <;> simp [dget, hk, ih]

theorem decFloor_comp (a b v : Int) (hb : 0 ≤ b) :
    decFloor b (decFloor a v) = decFloor (a + b) v := by
  unfold decFloor
  rcases le_total (v - a) 0 with h | h <;>
    rcases le_total (v - (a + b)) 0 with h2 | h2 <;>
    omega

/-- C2 (monotonic countdown): after `countdown_etas d` with `0 ≤ d`, a map
tracked with ETA `e` has ETA exactly `max 0 (e - d)`; the same holds for
every per-server `(server, seconds)` entry of its upcoming list; the new
values are never negative and never exceed the old non-negative values. -/
theorem countdown_etas_monotonic (st : WatcherState) (d : Int) (hd : 0 ≤ d) :
    (∀ mn e, dget st.eta_seconds_by_map mn = some e →
        dget (st.countdown_etas d).eta_seconds_by_map mn
          = some (max 0 (e - d)) ∧
        0 ≤ max 0 (e - d) ∧ (0 ≤ e → max 0 (e - d) ≤ e)) ∧
    (∀ mn items, dget st.upcoming_by_map mn = some items →
        dget (st.countdown_etas d).upcoming_by_map mn
          = some (mapValues (decFloor d) items) ∧
        ∀ p ∈ mapValues (decFloor d) items, 0 ≤ p.2) := by
  constructor
  · intro mn e he
    refine ⟨?_, le_max_left 0 _, fun h0 => by omega⟩
    unfold WatcherState.countdown_etas
    rw [show max 0 (e - d) = decFloor d e from rfl]
    rw [dget_mapValues, he]
    rfl
  · intro mn items hi
    refine ⟨?_, ?_⟩
    · unfold WatcherState.countdown_etas
      rw [dget_mapValues, hi]
      rfl
    · intro p hp
      unfold mapValues at hp
      simp only [List.mem_map] at hp
      obtain ⟨q, _, rfl⟩ := hp
      exact le_max_left 0 _

/-- A small concrete state used by witnesses: map 7 tracked at 65 s. -/
def sampleTrackedState : WatcherState :=
  { WatcherState.mkInitial 600 with
    eta_seconds_by_map := [(7, 65)]
    server_by_map := [(7, "Server 2")]
    upcoming_by_map := [(7, [("Server 2", 65)])] }

/-- Witness for C2 at a concrete state and decrement. -/
theorem countdown_etas_monotonic_witness :
    (0 : Int) ≤ 10 ∧
    dget (sampleTrackedState.countdown_etas 10).eta_seconds_by_map 7
      = some (max 0 (65 - 10)) :=
  ⟨by decide,
   (((countdown_etas_monotonic sampleTrackedState 10 (by decide)).1)
      7 65 (by decide)).1⟩

/-- C10 (countdown additivity and frame): `countdown_etas a` then
`countdown_etas b` equals `countdown_etas (a + b)` exactly (both the tracked
ETA dictionary and every per-server upcoming list), and `countdown_etas`
leaves `live_until_by_map`, `live_servers_by_map`, `notified_live` and
`server_uptime_seconds` untouched. -/
theorem countdown_etas_additive (st : WatcherState) (a b : Int)
    (_ha : 0 ≤ a) (hb : 0 ≤ b) :
    (st.countdown_etas a).countdown_etas b = st.countdown_etas (a + b) ∧
    (st.countdown_etas a).live_until_by_map = st.live_until_by_map ∧
    (st.countdown_etas a).live_servers_by_map = st.live_servers_by_map ∧
    (st.countdown_etas a).notified_live = st.notified_live ∧
    (st.countdown_etas a).server_uptime_seconds = st.server_uptime_seconds := by
  refine ⟨?_, rfl, rfl, rfl, rfl⟩
  unfold WatcherState.countdown_etas mapValues
  simp only [WatcherState.mk.injEq, List.map_map, and_true, true_and]
  constructor
  · apply List.map_congr_left
    intro p _
    simp only [Function.comp_apply]
    rw [decFloor_comp _ _ _ hb]
  · apply List.map_congr_left
    intro q _
    simp only [Function.comp_apply, List.map_map, Prod.mk.injEq, true_and]
    apply List.map_congr_left
    intro p _
    simp only [Function.comp_apply]
    rw [decFloor_comp _ _ _ hb]

/-- Witness for C10 at a concrete state and split. -/
theorem countdown_etas_additive_witness :
    ((0 : Int) ≤ 3 ∧ (0 : Int) ≤ 4) ∧
    (sampleTrackedState.countdown_etas 3).countdown_etas 4
      = sampleTrackedState.countdown_etas (3 + 4) := by
  refine ⟨⟨by decide, by decide⟩, ?_⟩
  exact (countdown_etas_additive sampleTrackedState 3 4
    (by decide) (by decide)).1

theorem dget_dset_self {K V : Type} [DecidableEq K] (l : List (K × V))
    (k : K) (v : V) : dget (dset l k v) k = some v := by
  induction l with
  | nil =>
      show (if k = k then some v else none) = some v
      rw [if_pos rfl]
  | cons p t ih =>
      obtain ⟨a, b⟩ := p
      show dget (if a = k then (a, v) :: t else (a, b) :: dset t k v) k
        = some v
      by_cases hk : a = k
      · rw [if_pos hk]
        show (if a = k then some v else dget t k) = some v
        rw [if_pos hk]
      · rw [if_neg hk]
        show (if a = k then some b else dget (dset t k v) k) = some v
        rw [if_neg hk, ih]

theorem dget_dset_ne {K V : Type} [DecidableEq K] (l : List (K × V))
    (k k' : K) (v : V) (h : k' ≠ k) : dget (dset l k v) k' = dget l k' := by
  induction l with
  | nil =>
      show (if k = k' then some v else none) = none
      rw [if_neg (Ne.symm h)]
  | cons p t ih =>
      obtain ⟨a, b⟩ := p
      show dget (if a = k then (a, v) :: t else (a, b) :: dset t k v) k'
        = (if a = k' then some b else dget t k')
      by_cases hk : a = k
      · rw [if_pos hk]
        show (if a = k' then some v else dget t k')
          = (if a = k' then some b else dget t k')
        have hne : ¬ a = k' := by rw [hk]; exact Ne.symm h
        rw [if_neg hne, if_neg hne]
      · rw [if_neg hk]
        show (if a = k' then some b else dget (dset t k v) k')
          = (if a = k' then some b else dget t k')
        by_cases hk' : a = k'
        · rw [if_pos hk', if_pos hk']
        · rw [if_neg hk', if_neg hk', ih]

theorem dget_ddel_ne {K V : Type} [DecidableEq K] (l : List (K × V))
    (k k' : K) (h : k' ≠ k) : dget (ddel l k) k' = dget l k' := by
  induction l with
  | nil => rfl
  | cons p t ih =>
      obtain ⟨a, b⟩ := p
      show dget (if a = k then t else (a, b) :: ddel t k) k'
        = (if a = k' then some b else dget t k')
      by_cases hk : a = k
      · rw [if_pos hk]
        have hne : ¬ a = k' := by rw [hk]; exact Ne.symm h
        rw [if_neg hne]
      · rw [if_neg hk]
        show (if a = k' then some b else dget (ddel t k) k')
          = (if a = k' then some b else dget t k')
        by_cases hk' : a = k'
        · rw [if_pos hk', if_pos hk']
        · rw [if_neg hk', if_neg hk', ih]

/-- Python `round(obs / 60.0)` for `obs > 0`: round to the nearest whole
number of minutes, ties to even (Python's banker's rounding).  The only tie
case is a remainder of exactly 30, where `obs / 60.0` is an exact float
(`q + 0.5`), so the float and this exact computation agree. -/
def roundHalfEvenMinutes (obs : Int) : Int :=
  let q := Int.ediv obs 60
  let r := Int.emod obs 60
  if 30 < r then q + 1
  else if r < 30 then q
  else if Int.emod q 2 = 0 then q else q + 1

/-- The effect of `WatcherState.update_server_uptime` (lines 389-428) on the
`server_uptime_seconds` dictionary — the only field it can change.  The
float comparisons `x >= current * 0.95` and `x <= current * 1.05` are
modelled exactly as `20 * x ≥ 19 * current` and `20 * x ≤ 21 * current`. -/
def updateUptimeDict (up : List (String × Int)) (server : String)
    (observed : Int) : List (String × Int) :=
  if server = "" ∨ observed ≤ 0 then up
  else
    let observed_seconds := 60 * roundHalfEvenMinutes observed
    let current := (dget up server).getD 600
    let is_close := |observed_seconds - observed| ≤ 30
    let is_high := 20 * observed ≥ 19 * current
    if is_close ∧ (observed_seconds ≥ current ∨ is_high) then
      if observed_seconds > current ∨
          (20 * observed_seconds ≥ 19 * current ∧
           20 * observed_seconds ≤ 21 * current) then
        dset up server observed_seconds
      else up
    else up

/-- `WatcherState.update_server_uptime` (lines 389-428). -/
def WatcherState.update_server_uptime (st : WatcherState) (server : String)
    (observed : Int) : WatcherState :=
  { st with
    server_uptime_seconds :=
      updateUptimeDict st.server_uptime_seconds server observed }

/-- `WatcherState.get_server_uptime` (lines 430-442). -/
def WatcherState.get_server_uptime (st : WatcherState) (server : String) :
    Int :=
  if server = "" then 600
  else (dget st.server_uptime_seconds server).getD 600

/-- C7 (server uptime learning acceptance): from the seeded default of 600 s
for "Server 3", observing a remaining time of 598 s (within 30 s of the
whole-minute value 600) sets the learned uptime to exactly 600 s, while
observing 400 s (not near a boundary relative to the current belief) leaves
it unchanged at 600 s. -/
theorem update_server_uptime_learning :
    dget ((WatcherState.mkInitial 600).update_server_uptime
        "Server 3" 598).server_uptime_seconds "Server 3" = some 600 ∧
    dget ((WatcherState.mkInitial 600).update_server_uptime
        "Server 3" 400).server_uptime_seconds "Server 3" = some 600 := by
  decide

/-- The learned uptime for "Server 9" after a sequence of accepted
whole-minute-adjacent observations, climbing from the 900 s seed to 1260 s. -/
def uptimeClimbState : WatcherState :=
  [(959 : Int), 1019, 1079, 1139, 1199, 1259].foldl
    (fun st o => st.update_server_uptime "Server 9" o)
    (WatcherState.mkInitial 600)

/-- C8 counterexample: the learned uptime is not monotone.  Through the
reachable sequence of observations 959, 1019, 1079, 1139, 1199, 1259 the
belief for "Server 9" climbs to 1260 s; a further observation of 1200 s
(a whole minute, and at least 95 % of 1260) is then accepted and stores
1200 s, a strict decrease. -/
theorem update_server_uptime_decrease_cex :
    dget uptimeClimbState.server_uptime_seconds "Server 9" = some 1260 ∧
    dget ((uptimeClimbState.update_server_uptime
        "Server 9" 1200).server_uptime_seconds) "Server 9" = some 1200 ∧
    ¬ (1260 : Int) ≤ 1200 := by
  decide

/-- C8 amended: the learned uptime never decreases by more than 5 %: for
every server `s` with a non-negative current belief (default 600 when
absent), after any `update_server_uptime` call the stored belief is at least
95 % of the previous one (`19 * old ≤ 20 * new`). -/
theorem update_server_uptime_bounded_regression (st : WatcherState)
    (server : String) (observed : Int) (s : String)
    (h : 0 ≤ (dget st.server_uptime_seconds s).getD 600) :
    19 * ((dget st.server_uptime_seconds s).getD 600)
      ≤ 20 * ((dget (st.update_server_uptime server
          observed).server_uptime_seconds s).getD 600) := by
  unfold WatcherState.update_server_uptime updateUptimeDict
  split
  · dsimp only
    omega
  · dsimp only
    split
    · split
      · rename_i hcond
        by_cases hs : s = server
        · subst hs
          simp only [dget_dset_self, Option.getD_some]
          omega
        · simp only [dget_dset_ne _ _ _ _ hs]
          omega
      · omega
    · omega

/-- Witness for C8 amended at a concrete state and observation. -/
theorem update_server_uptime_bounded_regression_witness :
    (0 : Int) ≤ (dget (WatcherState.mkInitial
        600).server_uptime_seconds "Server 9").getD 600 ∧
    19 * ((dget (WatcherState.mkInitial
        600).server_uptime_seconds "Server 9").getD 600)
      ≤ 20 * ((dget ((WatcherState.mkInitial 600).update_server_uptime
          "Server 9" 870).server_uptime_seconds "Server 9").getD 600) :=
  ⟨by decide,
   update_server_uptime_bounded_regression (WatcherState.mkInitial 600)
     "Server 9" 870 "Server 9" (by decide)⟩

/-- One parsed schedule record, as produced by the snapshot layer
(`schedule_parser.parse_live_maps`) and consumed by
`WatcherState.update_from_fetch` (the external-interface contract of
spec section 6). -/
structure Row where
  map_number : String
  server : String
  is_live : Bool
  eta : String
  remaining_time : String
  needs_retry : Bool
  deriving DecidableEq, Repr

/-- Numeric value of a decimal digit character. -/
def digitVal (c : Char) : Nat := c.toNat - 48

/-- Value of a non-empty string of decimal digits. -/
def decDigitsVal (l : List Char) : Int :=
  l.foldl (fun acc c => 10 * acc + Int.ofNat (digitVal c)) 0

/-- Python `int(s)` restricted to the shapes the snapshot layer produces:
an optional minus sign followed by decimal digits; anything else raises
`ValueError`, modelled as `none` (the caller catches it and skips the
record, lines 72-75). -/
def pyInt (s : String) : Option Int :=
  match s.toList with
  | [] => none
  | c :: rest =>
      if c = '-' then
        if rest ≠ [] ∧ rest.all Char.isDigit then
          some (-(decDigitsVal rest))
        else none
      else if (c :: rest).all Char.isDigit then
        some (decDigitsVal (c :: rest))
      else none

/-- Python `s and s.isdigit()`: non-empty and all decimal digits. -/
def pyIsDigit (s : String) : Bool :=
  !s.toList.isEmpty && s.toList.all Char.isDigit

/-- The regex `^(\d{1,2}):(\d{2})$` of lines 135-137, returning
`minutes * 60 + seconds` on a match. -/
def parseEta (s : String) : Option Int :=
  match s.toList with
  | [a, c, b1, b2] =>
      if a.isDigit ∧ c = ':' ∧ b1.isDigit ∧ b2.isDigit then
        some (Int.ofNat (digitVal a * 60 + digitVal b1 * 10 + digitVal b2))
      else none
  | [a1, a2, c, b1, b2] =>
      if a1.isDigit ∧ a2.isDigit ∧ c = ':' ∧ b1.isDigit ∧ b2.isDigit then
        some (Int.ofNat ((digitVal a1 * 10 + digitVal a2) * 60
          + digitVal b1 * 10 + digitVal b2))
      else none
  | _ => none

/-- Stable insertion of `p` into a list sorted ascending by second
component: `p` goes after every entry with a value `≤ p.2`. -/
def insSortedByVal (p : String × Int) : List (String × Int) →
    List (String × Int)
  | [] => [p]
  | q :: t => if q.2 ≤ p.2 then q :: insSortedByVal p t else p :: q :: t

/-- Python's stable `sorted(items, key=lambda x: x[1])`. -/
def sortByVal (l : List (String × Int)) : List (String × Int) :=
  l.foldl (fun acc p => insSortedByVal p acc) []

/-- Lines 153-158: fold a `(server, sec)` observation into the per-server
upcoming list of map `mn`: keep the minimum per server and re-sort
ascending by seconds. -/
def updateUpcoming (upcoming : List (Int × List (String × Int))) (mn : Int)
    (srv : String) (sec : Int) : List (Int × List (String × Int)) :=
  let upcoming := if dmem upcoming mn then upcoming else dset upcoming mn []
  let items := (dget upcoming mn).getD []
  let existing := items.foldl (fun d p => dset d p.1 p.2) []
  match dget existing srv with
  | some t =>
      if sec < t then dset upcoming mn (sortByVal (dset existing srv sec))
      else upcoming
  | none => dset upcoming mn (sortByVal (dset existing srv sec))

/-- `live_servers_by_map.setdefault(mn, set()).add(srv)`. -/
def addLiveServer (ls : List (Int × List String)) (mn : Int) (srv : String) :
    List (Int × List String) :=
  dset ls mn (sadd ((dget ls mn).getD []) srv)

/-- The body of the per-record loop of `WatcherState.update_from_fetch`
(lines 71-164).  `localMaps` is `maps_with_local_state`, computed once from
the state at entry (line 69), not updated during the loop. -/
def updateRowState (watched : List Int) (now_ts : Int) (localMaps : List Int)
    (st : WatcherState) (r : Row) : WatcherState :=
  match pyInt r.map_number with
  | none => st
  | some mn =>
    if mn ∈ watched then
      let srv := r.server
      if r.is_live then
        if r.needs_retry then st
        else
          let st :=
            if pyIsDigit r.remaining_time then
              let rs := (pyInt r.remaining_time).getD 0
              if 0 < rs then st.update_server_uptime srv rs else st
            else st
          if dmem st.live_until_by_map mn then
            let st :=
              if pyIsDigit r.remaining_time then
                { st with
                  live_until_by_map := dset st.live_until_by_map mn
                    (now_ts + (pyInt r.remaining_time).getD 0) }
              else st
            if srv ≠ "" then
              { st with
                live_servers_by_map := addLiveServer st.live_servers_by_map
                  mn srv }
            else st
          else if mn ∉ localMaps then
            let st :=
              if pyIsDigit r.remaining_time then
                { st with
                  live_until_by_map := dset st.live_until_by_map mn
                    (now_ts + (pyInt r.remaining_time).getD 0) }
              else
                { st with
                  live_until_by_map := dset st.live_until_by_map mn
                    (now_ts + st.get_server_uptime srv) }
            if srv ≠ "" then
              { st with
                live_servers_by_map := addLiveServer st.live_servers_by_map
                  mn srv }
            else st
          else st
      else
        if r.eta ≠ "" then
          match parseEta r.eta with
          | some sec =>
              let st :=
                if dmem st.eta_seconds_by_map mn then
                  { st with
                    eta_seconds_by_map := dset st.eta_seconds_by_map mn sec
                    server_by_map := dset st.server_by_map mn srv }
                else if mn ∉ localMaps then
                  { st with
                    eta_seconds_by_map := dset st.eta_seconds_by_map mn sec
                    server_by_map := dset st.server_by_map mn srv }
                else st
              if srv ≠ "" then
                { st with
                  upcoming_by_map := updateUpcoming st.upcoming_by_map mn
                    srv sec }
              else st
          | none => st
        else st
    else st

/-- The advisory `live_now` return value of `update_from_fetch`: every
parseable, watched, live record's map number (lines 92, 130). -/
def liveNowOf (watched : List Int) (rows : List Row) : List Int :=
  rows.foldl (fun acc r =>
    match pyInt r.map_number with
    | none => acc
    | some mn => if mn ∈ watched ∧ r.is_live then sadd acc mn else acc) []

/-- `WatcherState.update_from_fetch` (lines 52-166): fold the per-record
update over the rows, with `maps_with_local_state` frozen at entry; return
the updated state and the advisory live set. -/
def WatcherState.update_from_fetch (st : WatcherState) (rows : List Row)
    (watched : List Int) (now_ts : Int) : WatcherState × List Int :=
  let localMaps := st.eta_seconds_by_map.map Prod.fst
    ++ st.live_until_by_map.map Prod.fst
  (rows.foldl (updateRowState watched now_ts localMaps) st,
   liveNowOf watched rows)

/-- A realistic first snapshot in which watched map 5 is queued on
"Server 1" (ETA 1:00) and simultaneously live on "Server 2"
(500 s remaining). -/
def bothRows : List Row :=
  [{ map_number := "5", server := "Server 1", is_live := false,
     eta := "1:00", remaining_time := "", needs_retry := false },
   { map_number := "5", server := "Server 2", is_live := true,
     eta := "", remaining_time := "500", needs_retry := false }]

/-- C1 (mutual exclusion of tracked and live state) fails on the code:
applying `update_from_fetch` to a fresh state with a snapshot that lists
map 5 both as queued (parseable ETA) and as live leaves map 5 with a
tracked prediction (60 s) AND a live window expiring in the future
(1500 > 1000) simultaneously, because `maps_with_local_state` is computed
once before the loop and sees neither entry.  The spec calls this an
`InvariantViolation` that "must not occur by construction". -/
theorem update_from_fetch_mutual_exclusion_violation :
    dget ((WatcherState.mkInitial 600).update_from_fetch bothRows
        [5] 1000).1.eta_seconds_by_map 5 = some 60 ∧
    dget ((WatcherState.mkInitial 600).update_from_fetch bothRows
        [5] 1000).1.live_until_by_map 5 = some 1500 ∧
    (1000 : Int) < 1500 := by
  decide

/-- C6 (placeholder immunity): a record carrying the placeholder flag
`needs_retry = true` (which the snapshot layer sets only on live records,
`schedule_parser.py` lines 133, 178) is skipped entirely by
`update_from_fetch` (lines 87-93): the whole state — in particular every
live window expiry, live server set, and tracked/upcoming ETA entry — is
unchanged, whatever `remaining_time` carries. -/
theorem update_from_fetch_placeholder_immunity (st : WatcherState) (r : Row)
    (watched : List Int) (now_ts : Int)
    (hretry : r.needs_retry = true) (hlive : r.is_live = true) :
    (st.update_from_fetch [r] watched now_ts).1 = st := by
  unfold WatcherState.update_from_fetch
  show updateRowState watched now_ts _ st r = st
  unfold updateRowState
  cases hp : pyInt r.map_number with
  | none => rfl
  | some mn =>
      by_cases hw : mn ∈ watched
      · simp [hw, hlive, hretry]
      · simp [hw]

/-- Witness for C6: a placeholder record for live map 9 with a wild
remaining time leaves a state with an active live window untouched. -/
theorem update_from_fetch_placeholder_immunity_witness :
    ({ WatcherState.mkInitial 600 with
        live_until_by_map := [(9, 2000)] } : WatcherState) =
      (({ WatcherState.mkInitial 600 with
          live_until_by_map := [(9, 2000)] } : WatcherState).update_from_fetch
        [{ map_number := "9", server := "Server 4", is_live := true,
           eta := "", remaining_time := "1", needs_retry := true }]
        [9] 1000).1 :=
  (update_from_fetch_placeholder_immunity _ _ [9] 1000 rfl rfl).symm

theorem updateUptimeDict_empty_server (up : List (String × Int)) (obs : Int) :
    updateUptimeDict up "" obs = up := by
  unfold updateUptimeDict
  rw [if_pos (Or.inl rfl)]

theorem dget_addLiveServer_ne (ls : List (Int × List String)) (mn k : Int)
    (srv : String) (h : k ≠ mn) :
    dget (addLiveServer ls mn srv) k = dget ls k := by
  unfold addLiveServer
  exact dget_dset_ne _ _ _ _ h

theorem dget_addLiveServer_self (ls : List (Int × List String)) (mn : Int)
    (srv : String) :
    dget (addLiveServer ls mn srv) mn
      = some (sadd ((dget ls mn).getD []) srv) := by
  unfold addLiveServer
  exact dget_dset_self _ _ _

/-- The value at the map's own key after `updateUpcoming`, as a function of
the previous value alone. -/
def upcomingValue (o : Option (List (String × Int))) (srv : String)
    (sec : Int) : List (String × Int) :=
  let items := o.getD []
  let existing := items.foldl (fun d p => dset d p.1 p.2) []
  match dget existing srv with
  | some t =>
      if sec < t then sortByVal (dset existing srv sec) else items
  | none => sortByVal (dset existing srv sec)

theorem dget_updateUpcoming_ne (u : List (Int × List (String × Int)))
    (mn k : Int) (srv : String) (sec : Int) (h : k ≠ mn) :
    dget (updateUpcoming u mn srv sec) k = dget u k := by
  unfold updateUpcoming
  dsimp only
  by_cases hm : dmem u mn
  · rw [if_pos hm]
    split
    · split
      · exact dget_dset_ne _ _ _ _ h
      · rfl
    · exact dget_dset_ne _ _ _ _ h
  · rw [if_neg hm]
    split
    · split
      · rw [dget_dset_ne _ _ _ _ h, dget_dset_ne _ _ _ _ h]
      · rw [dget_dset_ne _ _ _ _ h]
    · rw [dget_dset_ne _ _ _ _ h, dget_dset_ne _ _ _ _ h]

theorem dget_updateUpcoming_self (u : List (Int × List (String × Int)))
    (mn : Int) (srv : String) (sec : Int) :
    dget (updateUpcoming u mn srv sec) mn
      = some (upcomingValue (dget u mn) srv sec) := by
  unfold updateUpcoming upcomingValue
  dsimp only
  by_cases hm : dmem u mn
  · obtain ⟨items, hitems⟩ : ∃ x, dget u mn = some x := by
      unfold dmem at hm
      cases hx : dget u mn with
      | none => rw [hx] at hm; simp at hm
      | some x => exact ⟨x, rfl⟩
    rw [if_pos hm, hitems]
    simp only [Option.getD_some]
    split
    · split
      · rw [dget_dset_self]
      · rw [hitems]
    · rw [dget_dset_self]
  · have hnone : dget u mn = none := by
      unfold dmem at hm
      cases hx : dget u mn with
      | none => rfl
      | some x => rw [hx] at hm; simp at hm
    rw [if_neg hm, hnone, dget_dset_self]
    simp only [Option.getD_some, Option.getD_none]
    split
    · split
      · rw [dget_dset_self]
      · rw [dget_dset_self]
    · rw [dget_dset_self]

theorem updateRowState_no_map (w : List Int) (n : Int) (l : List Int)
    (st : WatcherState) (r : Row) (h : pyInt r.map_number = none) :
    updateRowState w n l st r = st := by
  unfold updateRowState
  rw [h]

theorem updateRowState_not_live_no_eta (w : List Int) (n : Int) (l : List Int)
    (st : WatcherState) (r : Row)
    (hl : r.is_live = false) (he : parseEta r.eta = none) :
    updateRowState w n l st r = st := by
  unfold updateRowState
  cases hp : pyInt r.map_number with
  | none => rfl
  | some mn =>
      dsimp only
      by_cases hw : mn ∈ w
      · rw [if_pos hw]
        rw [hl]
        by_cases heta : r.eta ≠ ""
        · simp only [heta, if_true, he, Bool.false_eq_true, if_false]
          rw [if_pos heta]
        · simp only [heta, if_false, Bool.false_eq_true]
      · rw [if_neg hw]

/-- The effect of one record on the `server_uptime_seconds` dictionary: it
depends only on the record and the watch set, never on the per-map state
(the `update_server_uptime` call at lines 96-101 happens before any per-map
branching). -/
def uptimeRowEffect (w : List Int) (r : Row) (up : List (String × Int)) :
    List (String × Int) :=
  match pyInt r.map_number with
  | none => up
  | some mn =>
      if mn ∈ w ∧ r.is_live = true ∧ r.needs_retry = false
          ∧ pyIsDigit r.remaining_time = true
          ∧ 0 < (pyInt r.remaining_time).getD 0 then
        updateUptimeDict up r.server ((pyInt r.remaining_time).getD 0)
      else up

theorem updateRowState_locality (w : List Int) (n : Int) (l : List Int)
    (st : WatcherState) (r : Row) (mn : Int)
    (hp : pyInt r.map_number = some mn) :
    (updateRowState w n l st r).live_duration_seconds
        = st.live_duration_seconds ∧
    (updateRowState w n l st r).notified_live = st.notified_live ∧
    (updateRowState w n l st r).server_uptime_seconds
        = uptimeRowEffect w r st.server_uptime_seconds ∧
    ∀ k, k ≠ mn →
      dget (updateRowState w n l st r).eta_seconds_by_map k
          = dget st.eta_seconds_by_map k ∧
      dget (updateRowState w n l st r).server_by_map k
          = dget st.server_by_map k ∧
      dget (updateRowState w n l st r).live_until_by_map k
          = dget st.live_until_by_map k ∧
      dget (updateRowState w n l st r).live_servers_by_map k
          = dget st.live_servers_by_map k ∧
      dget (updateRowState w n l st r).upcoming_by_map k
          = dget st.upcoming_by_map k := by
  unfold updateRowState uptimeRowEffect
  rw [hp]
  dsimp only
  by_cases hw : mn ∈ w
  case neg =>
    have hnc : ¬(mn ∈ w ∧ r.is_live = true ∧ r.needs_retry = false
        ∧ pyIsDigit r.remaining_time = true
        ∧ 0 < (pyInt r.remaining_time).getD 0) := fun hc => hw hc.1
    rw [if_neg hw, if_neg hnc]
    exact ⟨rfl, rfl, rfl, fun k _ => ⟨rfl, rfl, rfl, rfl, rfl⟩⟩
  rw [if_pos hw]
  by_cases hlive : r.is_live = true
  · rw [if_pos hlive]
    by_cases hretry : r.needs_retry = true
    · have hnc : ¬(mn ∈ w ∧ r.is_live = true ∧ r.needs_retry = false
          ∧ pyIsDigit r.remaining_time = true
          ∧ 0 < (pyInt r.remaining_time).getD 0) := by
        intro hc
        rw [hretry] at hc
        exact absurd hc.2.2.1 (by decide)
      rw [if_pos hretry, if_neg hnc]
      exact ⟨rfl, rfl, rfl, fun k _ => ⟨rfl, rfl, rfl, rfl, rfl⟩⟩
    · rw [if_neg hretry]
      have hretry' : r.needs_retry = false := by
        cases hb : r.needs_retry
        · rfl
        · exact absurd hb hretry
      by_cases hdig : pyIsDigit r.remaining_time = true
      · rw [if_pos hdig, if_pos hdig, if_pos hdig]
        by_cases hrs : 0 < (pyInt r.remaining_time).getD 0
        · have hcond : mn ∈ w ∧ r.is_live = true ∧ r.needs_retry = false
              ∧ pyIsDigit r.remaining_time = true
              ∧ 0 < (pyInt r.remaining_time).getD 0 :=
            ⟨hw, hlive, hretry', hdig, hrs⟩
          rw [if_pos hrs, if_pos hcond]
          dsimp only [WatcherState.update_server_uptime]
          by_cases hml : dmem st.live_until_by_map mn
          · rw [if_pos hml]
            by_cases hsrv : r.server ≠ ""
            · rw [if_pos hsrv]
              exact ⟨rfl, rfl, rfl, fun k hk =>
                ⟨rfl, rfl, dget_dset_ne _ _ _ _ hk,
                 dget_addLiveServer_ne _ _ _ _ hk, rfl⟩⟩
            · rw [if_neg hsrv]
              exact ⟨rfl, rfl, rfl, fun k hk =>
                ⟨rfl, rfl, dget_dset_ne _ _ _ _ hk, rfl, rfl⟩⟩
          · rw [if_neg hml]
            by_cases hloc : mn ∉ l
            · rw [if_pos hloc]
              by_cases hsrv : r.server ≠ ""
              · rw [if_pos hsrv]
                exact ⟨rfl, rfl, rfl, fun k hk =>
                  ⟨rfl, rfl, dget_dset_ne _ _ _ _ hk,
                   dget_addLiveServer_ne _ _ _ _ hk, rfl⟩⟩
              · rw [if_neg hsrv]
                exact ⟨rfl, rfl, rfl, fun k hk =>
                  ⟨rfl, rfl, dget_dset_ne _ _ _ _ hk, rfl, rfl⟩⟩
            · rw [if_neg hloc]
              exact ⟨rfl, rfl, rfl, fun k _ => ⟨rfl, rfl, rfl, rfl, rfl⟩⟩
        · have hnc : ¬(mn ∈ w ∧ r.is_live = true ∧ r.needs_retry = false
              ∧ pyIsDigit r.remaining_time = true
              ∧ 0 < (pyInt r.remaining_time).getD 0) := fun hc => hrs hc.2.2.2.2
          rw [if_neg hrs, if_neg hnc]
          by_cases hml : dmem st.live_until_by_map mn
          · rw [if_pos hml]
            by_cases hsrv : r.server ≠ ""
            · rw [if_pos hsrv]
              exact ⟨rfl, rfl, rfl, fun k hk =>
                ⟨rfl, rfl, dget_dset_ne _ _ _ _ hk,
                 dget_addLiveServer_ne _ _ _ _ hk, rfl⟩⟩
            · rw [if_neg hsrv]
              exact ⟨rfl, rfl, rfl, fun k hk =>
                ⟨rfl, rfl, dget_dset_ne _ _ _ _ hk, rfl, rfl⟩⟩
          · rw [if_neg hml]
            by_cases hloc : mn ∉ l
            · rw [if_pos hloc]
              by_cases hsrv : r.server ≠ ""
              · rw [if_pos hsrv]
                exact ⟨rfl, rfl, rfl, fun k hk =>
                  ⟨rfl, rfl, dget_dset_ne _ _ _ _ hk,
                   dget_addLiveServer_ne _ _ _ _ hk, rfl⟩⟩
              · rw [if_neg hsrv]
                exact ⟨rfl, rfl, rfl, fun k hk =>
                  ⟨rfl, rfl, dget_dset_ne _ _ _ _ hk, rfl, rfl⟩⟩
            · rw [if_neg hloc]
              exact ⟨rfl, rfl, rfl, fun k _ => ⟨rfl, rfl, rfl, rfl, rfl⟩⟩
      · have hnc : ¬(mn ∈ w ∧ r.is_live = true ∧ r.needs_retry = false
            ∧ pyIsDigit r.remaining_time = true
            ∧ 0 < (pyInt r.remaining_time).getD 0) := fun hc => hdig hc.2.2.2.1
        rw [if_neg hdig, if_neg hdig, if_neg hdig, if_neg hnc]
        by_cases hml : dmem st.live_until_by_map mn
        · rw [if_pos hml]
          by_cases hsrv : r.server ≠ ""
          · rw [if_pos hsrv]
            exact ⟨rfl, rfl, rfl, fun k hk =>
              ⟨rfl, rfl, rfl, dget_addLiveServer_ne _ _ _ _ hk, rfl⟩⟩
          · rw [if_neg hsrv]
            exact ⟨rfl, rfl, rfl, fun k _ => ⟨rfl, rfl, rfl, rfl, rfl⟩⟩
        · rw [if_neg hml]
          by_cases hloc : mn ∉ l
          · rw [if_pos hloc]
            by_cases hsrv : r.server ≠ ""
            · rw [if_pos hsrv]
              exact ⟨rfl, rfl, rfl, fun k hk =>
                ⟨rfl, rfl, dget_dset_ne _ _ _ _ hk,
                 dget_addLiveServer_ne _ _ _ _ hk, rfl⟩⟩
            · rw [if_neg hsrv]
              exact ⟨rfl, rfl, rfl, fun k hk =>
                ⟨rfl, rfl, dget_dset_ne _ _ _ _ hk, rfl, rfl⟩⟩
          · rw [if_neg hloc]
            exact ⟨rfl, rfl, rfl, fun k _ => ⟨rfl, rfl, rfl, rfl, rfl⟩⟩
  · have hnc : ¬(mn ∈ w ∧ r.is_live = true ∧ r.needs_retry = false
        ∧ pyIsDigit r.remaining_time = true
        ∧ 0 < (pyInt r.remaining_time).getD 0) := fun hc => hlive hc.2.1
    rw [if_neg hlive, if_neg hnc]
    by_cases heta : r.eta ≠ ""
    · rw [if_pos heta]
      cases hpe : parseEta r.eta with
      | none =>
          exact ⟨rfl, rfl, rfl, fun k _ => ⟨rfl, rfl, rfl, rfl, rfl⟩⟩
      | some sec =>
          dsimp only
          by_cases hme : dmem st.eta_seconds_by_map mn
          · rw [if_pos hme]
            by_cases hsrv : r.server ≠ ""
            · rw [if_pos hsrv]
              exact ⟨rfl, rfl, rfl, fun k hk =>
                ⟨dget_dset_ne _ _ _ _ hk, dget_dset_ne _ _ _ _ hk, rfl, rfl,
                 dget_updateUpcoming_ne _ _ _ _ _ hk⟩⟩
            · rw [if_neg hsrv]
              exact ⟨rfl, rfl, rfl, fun k hk =>
                ⟨dget_dset_ne _ _ _ _ hk, dget_dset_ne _ _ _ _ hk, rfl, rfl,
                 rfl⟩⟩
          · rw [if_neg hme]
            by_cases hloc : mn ∉ l
            · rw [if_pos hloc]
              by_cases hsrv : r.server ≠ ""
              · rw [if_pos hsrv]
                exact ⟨rfl, rfl, rfl, fun k hk =>
                  ⟨dget_dset_ne _ _ _ _ hk, dget_dset_ne _ _ _ _ hk, rfl, rfl,
                   dget_updateUpcoming_ne _ _ _ _ _ hk⟩⟩
              · rw [if_neg hsrv]
                exact ⟨rfl, rfl, rfl, fun k hk =>
                  ⟨dget_dset_ne _ _ _ _ hk, dget_dset_ne _ _ _ _ hk, rfl, rfl,
                   rfl⟩⟩
            · rw [if_neg hloc]
              by_cases hsrv : r.server ≠ ""
              · rw [if_pos hsrv]
                exact ⟨rfl, rfl, rfl, fun k hk =>
                  ⟨rfl, rfl, rfl, rfl,
                   dget_updateUpcoming_ne _ _ _ _ _ hk⟩⟩
              · rw [if_neg hsrv]
                exact ⟨rfl, rfl, rfl, fun k _ => ⟨rfl, rfl, rfl, rfl, rfl⟩⟩
    · rw [if_neg heta]
      exact ⟨rfl, rfl, rfl, fun k _ => ⟨rfl, rfl, rfl, rfl, rfl⟩⟩

theorem updateRowState_own_key_congr (w : List Int) (n : Int) (l : List Int)
    (s1 s2 : WatcherState) (r : Row) (mn : Int)
    (hp : pyInt r.map_number = some mn)
    (hup : s1.server_uptime_seconds = s2.server_uptime_seconds)
    (he : dget s1.eta_seconds_by_map mn = dget s2.eta_seconds_by_map mn)
    (hs : dget s1.server_by_map mn = dget s2.server_by_map mn)
    (hl : dget s1.live_until_by_map mn = dget s2.live_until_by_map mn)
    (hls : dget s1.live_servers_by_map mn = dget s2.live_servers_by_map mn)
    (hu : dget s1.upcoming_by_map mn = dget s2.upcoming_by_map mn) :
    dget (updateRowState w n l s1 r).eta_seconds_by_map mn
        = dget (updateRowState w n l s2 r).eta_seconds_by_map mn ∧
    dget (updateRowState w n l s1 r).server_by_map mn
        = dget (updateRowState w n l s2 r).server_by_map mn ∧
    dget (updateRowState w n l s1 r).live_until_by_map mn
        = dget (updateRowState w n l s2 r).live_until_by_map mn ∧
    dget (updateRowState w n l s1 r).live_servers_by_map mn
        = dget (updateRowState w n l s2 r).live_servers_by_map mn ∧
    dget (updateRowState w n l s1 r).upcoming_by_map mn
        = dget (updateRowState w n l s2 r).upcoming_by_map mn := by
  have hgsu : s1.get_server_uptime r.server = s2.get_server_uptime r.server := by
    unfold WatcherState.get_server_uptime
    rw [hup]
  unfold updateRowState
  rw [hp]
  dsimp only
  by_cases hw : mn ∈ w
  case neg =>
    rw [if_neg hw, if_neg hw]
    exact ⟨he, hs, hl, hls, hu⟩
  rw [if_pos hw, if_pos hw]
  by_cases hlive : r.is_live = true
  · rw [if_pos hlive, if_pos hlive]
    by_cases hretry : r.needs_retry = true
    · rw [if_pos hretry, if_pos hretry]
      exact ⟨he, hs, hl, hls, hu⟩
    · rw [if_neg hretry, if_neg hretry]
      by_cases hdig : pyIsDigit r.remaining_time = true
      · rw [if_pos hdig, if_pos hdig, if_pos hdig,
          if_pos hdig, if_pos hdig, if_pos hdig]
        by_cases hrs : 0 < (pyInt r.remaining_time).getD 0
        · rw [if_pos hrs, if_pos hrs]
          dsimp only [WatcherState.update_server_uptime]
          by_cases hml : dmem s1.live_until_by_map mn
          · have hml2 : dmem s2.live_until_by_map mn := by
              unfold dmem at *
              rw [← hl]
              exact hml
            rw [if_pos hml, if_pos hml2]
            by_cases hsrv : r.server ≠ ""
            · rw [if_pos hsrv, if_pos hsrv]
              exact ⟨he, hs, by rw [dget_dset_self, dget_dset_self],
                by rw [dget_addLiveServer_self, dget_addLiveServer_self, hls],
                hu⟩
            · rw [if_neg hsrv, if_neg hsrv]
              exact ⟨he, hs, by rw [dget_dset_self, dget_dset_self], hls, hu⟩
          · have hml2 : ¬ dmem s2.live_until_by_map mn := by
              unfold dmem at *
              rw [← hl]
              exact hml
            rw [if_neg hml, if_neg hml2]
            by_cases hloc : mn ∉ l
            · rw [if_pos hloc, if_pos hloc]
              by_cases hsrv : r.server ≠ ""
              · rw [if_pos hsrv, if_pos hsrv]
                exact ⟨he, hs, by rw [dget_dset_self, dget_dset_self],
                  by rw [dget_addLiveServer_self, dget_addLiveServer_self,
                    hls], hu⟩
              · rw [if_neg hsrv, if_neg hsrv]
                exact ⟨he, hs, by rw [dget_dset_self, dget_dset_self], hls, hu⟩
            · rw [if_neg hloc, if_neg hloc]
              exact ⟨he, hs, hl, hls, hu⟩
        · rw [if_neg hrs, if_neg hrs]
          by_cases hml : dmem s1.live_until_by_map mn
          · have hml2 : dmem s2.live_until_by_map mn := by
              unfold dmem at *
              rw [← hl]
              exact hml
            rw [if_pos hml, if_pos hml2]
            by_cases hsrv : r.server ≠ ""
            · rw [if_pos hsrv, if_pos hsrv]
              exact ⟨he, hs, by rw [dget_dset_self, dget_dset_self],
                by rw [dget_addLiveServer_self, dget_addLiveServer_self, hls],
                hu⟩
            · rw [if_neg hsrv, if_neg hsrv]
              exact ⟨he, hs, by rw [dget_dset_self, dget_dset_self], hls, hu⟩
          · have hml2 : ¬ dmem s2.live_until_by_map mn := by
              unfold dmem at *
              rw [← hl]
              exact hml
            rw [if_neg hml, if_neg hml2]
            by_cases hloc : mn ∉ l
            · rw [if_pos hloc, if_pos hloc]
              by_cases hsrv : r.server ≠ ""
              · rw [if_pos hsrv, if_pos hsrv]
                exact ⟨he, hs, by rw [dget_dset_self, dget_dset_self],
                  by rw [dget_addLiveServer_self, dget_addLiveServer_self,
                    hls], hu⟩
              · rw [if_neg hsrv, if_neg hsrv]
                exact ⟨he, hs, by rw [dget_dset_self, dget_dset_self], hls, hu⟩
            · rw [if_neg hloc, if_neg hloc]
              exact ⟨he, hs, hl, hls, hu⟩
      · rw [if_neg hdig, if_neg hdig, if_neg hdig,
          if_neg hdig, if_neg hdig, if_neg hdig]
        by_cases hml : dmem s1.live_until_by_map mn
        · have hml2 : dmem s2.live_until_by_map mn := by
            unfold dmem at *
            rw [← hl]
            exact hml
          rw [if_pos hml, if_pos hml2]
          by_cases hsrv : r.server ≠ ""
          · rw [if_pos hsrv, if_pos hsrv]
            exact ⟨he, hs, hl,
              by rw [dget_addLiveServer_self, dget_addLiveServer_self, hls],
              hu⟩
          · rw [if_neg hsrv, if_neg hsrv]
            exact ⟨he, hs, hl, hls, hu⟩
        · have hml2 : ¬ dmem s2.live_until_by_map mn := by
            unfold dmem at *
            rw [← hl]
            exact hml
          rw [if_neg hml, if_neg hml2]
          by_cases hloc : mn ∉ l
          · rw [if_pos hloc, if_pos hloc]
            by_cases hsrv : r.server ≠ ""
            · rw [if_pos hsrv, if_pos hsrv]
              exact ⟨he, hs,
                by rw [dget_dset_self, dget_dset_self, hgsu],
                by rw [dget_addLiveServer_self, dget_addLiveServer_self, hls],
                hu⟩
            · rw [if_neg hsrv, if_neg hsrv]
              exact ⟨he, hs,
                by rw [dget_dset_self, dget_dset_self, hgsu], hls, hu⟩
          · rw [if_neg hloc, if_neg hloc]
            exact ⟨he, hs, hl, hls, hu⟩
  · rw [if_neg hlive, if_neg hlive]
    by_cases heta : r.eta ≠ ""
    · rw [if_pos heta, if_pos heta]
      cases hpe : parseEta r.eta with
      | none => exact ⟨he, hs, hl, hls, hu⟩
      | some sec =>
          dsimp only
          by_cases hme : dmem s1.eta_seconds_by_map mn
          · have hme2 : dmem s2.eta_seconds_by_map mn := by
              unfold dmem at *
              rw [← he]
              exact hme
            rw [if_pos hme, if_pos hme2]
            by_cases hsrv : r.server ≠ ""
            · rw [if_pos hsrv, if_pos hsrv]
              exact ⟨by rw [dget_dset_self, dget_dset_self],
                by rw [dget_dset_self, dget_dset_self], hl, hls,
                by rw [dget_updateUpcoming_self, dget_updateUpcoming_self, hu]⟩
            · rw [if_neg hsrv, if_neg hsrv]
              exact ⟨by rw [dget_dset_self, dget_dset_self],
                by rw [dget_dset_self, dget_dset_self], hl, hls, hu⟩
          · have hme2 : ¬ dmem s2.eta_seconds_by_map mn := by
              unfold dmem at *
              rw [← he]
              exact hme
            rw [if_neg hme, if_neg hme2]
            by_cases hloc : mn ∉ l
            · rw [if_pos hloc, if_pos hloc]
              by_cases hsrv : r.server ≠ ""
              · rw [if_pos hsrv, if_pos hsrv]
                exact ⟨by rw [dget_dset_self, dget_dset_self],
                  by rw [dget_dset_self, dget_dset_self], hl, hls,
                  by rw [dget_updateUpcoming_self, dget_updateUpcoming_self,
                    hu]⟩
              · rw [if_neg hsrv, if_neg hsrv]
                exact ⟨by rw [dget_dset_self, dget_dset_self],
                  by rw [dget_dset_self, dget_dset_self], hl, hls, hu⟩
            · rw [if_neg hloc, if_neg hloc]
              by_cases hsrv : r.server ≠ ""
              · rw [if_pos hsrv, if_pos hsrv]
                exact ⟨he, hs, hl, hls,
                  by rw [dget_updateUpcoming_self, dget_updateUpcoming_self,
                    hu]⟩
              · rw [if_neg hsrv, if_neg hsrv]
                exact ⟨he, hs, hl, hls, hu⟩
    · rw [if_neg heta, if_neg heta]
      exact ⟨he, hs, hl, hls, hu⟩

/-- Agreement of two watcher states everywhere outside one map key: equal
scalar fields and equal dictionary lookups at every other key. -/
def agreeExceptMap (m : Int) (s1 s2 : WatcherState) : Prop :=
  s1.live_duration_seconds = s2.live_duration_seconds ∧
  s1.notified_live = s2.notified_live ∧
  s1.server_uptime_seconds = s2.server_uptime_seconds ∧
  ∀ k, k ≠ m →
    dget s1.eta_seconds_by_map k = dget s2.eta_seconds_by_map k ∧
    dget s1.server_by_map k = dget s2.server_by_map k ∧
    dget s1.live_until_by_map k = dget s2.live_until_by_map k ∧
    dget s1.live_servers_by_map k = dget s2.live_servers_by_map k ∧
    dget s1.upcoming_by_map k = dget s2.upcoming_by_map k

theorem updateRowState_agree (w : List Int) (n : Int) (l : List Int)
    (r : Row) (m : Int) (s1 s2 : WatcherState)
    (hag : agreeExceptMap m s1 s2) :
    agreeExceptMap m (updateRowState w n l s1 r)
      (updateRowState w n l s2 r) := by
  obtain ⟨hd, hn, hup, hk⟩ := hag
  cases hp : pyInt r.map_number with
  | none =>
      rw [updateRowState_no_map _ _ _ _ _ hp,
        updateRowState_no_map _ _ _ _ _ hp]
      exact ⟨hd, hn, hup, hk⟩
  | some mn =>
      obtain ⟨f1d, f1n, f1u, f1k⟩ := updateRowState_locality w n l s1 r mn hp
      obtain ⟨f2d, f2n, f2u, f2k⟩ := updateRowState_locality w n l s2 r mn hp
      refine ⟨by rw [f1d, f2d, hd], by rw [f1n, f2n, hn],
        by rw [f1u, f2u, hup], ?_⟩
      intro k hkm
      by_cases hkmn : k = mn
      · subst hkmn
        obtain ⟨a1, a2, a3, a4, a5⟩ := hk k hkm
        exact updateRowState_own_key_congr w n l s1 s2 r k hp hup
          a1 a2 a3 a4 a5
      · obtain ⟨b1, b2, b3, b4, b5⟩ := f1k k hkmn
        obtain ⟨c1, c2, c3, c4, c5⟩ := f2k k hkmn
        obtain ⟨a1, a2, a3, a4, a5⟩ := hk k hkm
        exact ⟨by rw [b1, c1, a1], by rw [b2, c2, a2], by rw [b3, c3, a3],
          by rw [b4, c4, a4], by rw [b5, c5, a5]⟩

theorem foldl_updateRowState_agree (w : List Int) (n : Int) (l : List Int)
    (rows : List Row) (m : Int) (s1 s2 : WatcherState)
    (hag : agreeExceptMap m s1 s2) :
    agreeExceptMap m (rows.foldl (updateRowState w n l) s1)
      (rows.foldl (updateRowState w n l) s2) := by
  induction rows generalizing s1 s2 with
  | nil => exact hag
  | cons r t ih =>
      exact ih _ _ (updateRowState_agree _ _ _ _ _ _ _ hag)

/-- The malformed-record categories of C9: non-numeric map number, not-live
row with unparseable (or missing) ETA text, empty server label, live row
with non-digit remaining time. -/
def rowMalformed (r : Row) : Prop :=
  pyInt r.map_number = none ∨
  (r.is_live = false ∧ parseEta r.eta = none) ∨
  r.server = "" ∨
  (r.is_live = true ∧ pyIsDigit r.remaining_time = false)

instance (r : Row) : Decidable (rowMalformed r) := by
  unfold rowMalformed
  infer_instance

theorem updateRowState_malformed_agree (w : List Int) (n : Int) (l : List Int)
    (st : WatcherState) (r : Row) (mn : Int)
    (hp : pyInt r.map_number = some mn) (h : rowMalformed r) :
    agreeExceptMap mn (updateRowState w n l st r) st := by
  obtain ⟨f1d, f1n, f1u, f1k⟩ := updateRowState_locality w n l st r mn hp
  refine ⟨f1d, f1n, ?_, f1k⟩
  rw [f1u]
  unfold uptimeRowEffect
  rw [hp]
  dsimp only
  rcases h with h | ⟨hl, _⟩ | hsrv | ⟨_, hd⟩
  · rw [h] at hp
    exact absurd hp (by simp)
  · rw [if_neg (fun hc => by rw [hl] at hc; exact absurd hc.2.1 (by decide))]
  · split
    · rw [hsrv, updateUptimeDict_empty_server]
    · rfl
  · rw [if_neg
      (fun hc => by rw [hd] at hc; exact absurd hc.2.2.2.1 (by decide))]

/-- C9 (per-record fault isolation): `update_from_fetch` is a total
function of the record list (no exception escapes: a row whose map number
fails to parse is skipped by the `except ValueError: continue` of
lines 72-75, and all other malformed fields only ever fail boolean/regex
guards), and a malformed record — non-numeric map number, not-live row with
unparseable ETA text, empty server label, or live row with non-digit
remaining time — leaves the state at every other map exactly as if the
record had been absent from the snapshot: the scalar fields and the
per-map dictionaries at every key other than the record's own map number
coincide with those produced by the same call without that record. -/
theorem update_from_fetch_fault_isolation (st : WatcherState)
    (rows1 rows2 : List Row) (r : Row) (watched : List Int) (now_ts : Int)
    (h : rowMalformed r) (m : Int) (hm : pyInt r.map_number ≠ some m) :
    (st.update_from_fetch (rows1 ++ r :: rows2) watched
          now_ts).1.live_duration_seconds
        = (st.update_from_fetch (rows1 ++ rows2) watched
          now_ts).1.live_duration_seconds ∧
    (st.update_from_fetch (rows1 ++ r :: rows2) watched now_ts).1.notified_live
        = (st.update_from_fetch (rows1 ++ rows2) watched
          now_ts).1.notified_live ∧
    (st.update_from_fetch (rows1 ++ r :: rows2) watched
          now_ts).1.server_uptime_seconds
        = (st.update_from_fetch (rows1 ++ rows2) watched
          now_ts).1.server_uptime_seconds ∧
    dget (st.update_from_fetch (rows1 ++ r :: rows2) watched
          now_ts).1.eta_seconds_by_map m
        = dget (st.update_from_fetch (rows1 ++ rows2) watched
          now_ts).1.eta_seconds_by_map m ∧
    dget (st.update_from_fetch (rows1 ++ r :: rows2) watched
          now_ts).1.server_by_map m
        = dget (st.update_from_fetch (rows1 ++ rows2) watched
          now_ts).1.server_by_map m ∧
    dget (st.update_from_fetch (rows1 ++ r :: rows2) watched
          now_ts).1.live_until_by_map m
        = dget (st.update_from_fetch (rows1 ++ rows2) watched
          now_ts).1.live_until_by_map m ∧
    dget (st.update_from_fetch (rows1 ++ r :: rows2) watched
          now_ts).1.live_servers_by_map m
        = dget (st.update_from_fetch (rows1 ++ rows2) watched
          now_ts).1.live_servers_by_map m ∧
    dget (st.update_from_fetch (rows1 ++ r :: rows2) watched
          now_ts).1.upcoming_by_map m
        = dget (st.update_from_fetch (rows1 ++ rows2) watched
          now_ts).1.upcoming_by_map m := by
  unfold WatcherState.update_from_fetch
  dsimp only
  rw [List.foldl_append, List.foldl_append, List.foldl_cons]
  cases hp : pyInt r.map_number with
  | none =>
      rw [updateRowState_no_map _ _ _ _ _ hp]
      exact ⟨rfl, rfl, rfl, rfl, rfl, rfl, rfl, rfl⟩
  | some mn =>
      have hmmn : m ≠ mn := by
        intro hEq
        rw [hEq] at hm
        exact hm hp
      have hbase := updateRowState_malformed_agree watched now_ts
        (st.eta_seconds_by_map.map Prod.fst
          ++ st.live_until_by_map.map Prod.fst)
        (List.foldl (updateRowState watched now_ts
          (st.eta_seconds_by_map.map Prod.fst
            ++ st.live_until_by_map.map Prod.fst)) st rows1) r mn hp h
      have hfold := foldl_updateRowState_agree watched now_ts
        (st.eta_seconds_by_map.map Prod.fst
          ++ st.live_until_by_map.map Prod.fst)
        rows2 mn _ _ hbase
      obtain ⟨hd, hn, hu, hk⟩ := hfold
      obtain ⟨a1, a2, a3, a4, a5⟩ := hk m hmmn
      exact ⟨hd, hn, hu, a1, a2, a3, a4, a5⟩

/-- A record whose map-number text does not parse as an integer. -/
def malformedMapRow : Row :=
  { map_number := "x7"
    server := "Server 1"
    is_live := false
    eta := "0:30"
    remaining_time := ""
    needs_retry := false }

/-- A well-formed record: map 7 queued on "Server 2" at 1:05. -/
def goodEtaRow : Row :=
  { map_number := "7"
    server := "Server 2"
    is_live := false
    eta := "1:05"
    remaining_time := ""
    needs_retry := false }

/-- Witness for C9: dropping a malformed record (bad map number text) from
a two-row snapshot leaves map 7 state identical. -/
theorem update_from_fetch_fault_isolation_witness :
    rowMalformed malformedMapRow ∧
    pyInt malformedMapRow.map_number ≠ some 7 ∧
    dget ((WatcherState.mkInitial 600).update_from_fetch
        ([] ++ malformedMapRow :: [goodEtaRow])
        [7] 1000).1.eta_seconds_by_map 7
      = dget ((WatcherState.mkInitial 600).update_from_fetch
        ([] ++ [goodEtaRow]) [7] 1000).1.eta_seconds_by_map 7 :=
  ⟨by decide, by decide,
   (update_from_fetch_fault_isolation (WatcherState.mkInitial 600) []
      [goodEtaRow] malformedMapRow [7] 1000
      (by decide) 7 (by decide)).2.2.2.1⟩

/-- `mn in live_until_by_map and live_until_by_map[mn] > now_ts`: the map
has a live window with a still-future expiry. -/
def liveActive (st : WatcherState) (now mn : Int) : Bool :=
  match dget st.live_until_by_map mn with
  | none => false
  | some t => decide (now < t)

/-- The `expired_etas` collection loop of `KackyWatcher.poll_once`
(watcher_core.py lines 396-409): watched maps whose tracked ETA, or any
per-server upcoming ETA, has reached zero while no live window is
active. -/
def collectExpiredEtas (watched : List Int) (st : WatcherState)
    (now : Int) : List Int :=
  watched.foldl (fun acc mn =>
    let acc :=
      match dget st.eta_seconds_by_map mn with
      | some e =>
          if e ≤ 0 ∧ liveActive st now mn = false then acc ++ [mn] else acc
      | none => acc
    match dget st.upcoming_by_map mn with
    | some items =>
        if (items.any (fun p => p.2 ≤ 0)) ∧ liveActive st now mn = false
            ∧ mn ∉ acc then
          acc ++ [mn]
        else acc
    | none => acc) []

/-- The per-map promotion body of lines 412-435: mark an ETA-expired map as
live for `live_duration_seconds`, schedule a resync in 60 s, move its
predicted server into the live-server set, drop its tracked ETA and its
upcoming entry for that server, and fire a notification unless the map is
already in the notified ledger. -/
def promoteExpired (now : Int)
    (acc : (WatcherState × List (Int × Int)) × List (Int × String))
    (mn : Int) : (WatcherState × List (Int × Int)) × List (Int × String) :=
  let st := acc.1.1
  let resync := acc.1.2
  let notifs := acc.2
  if liveActive st now mn = false then
    let st := { st with
      live_until_by_map := dset st.live_until_by_map mn
        (now + st.live_duration_seconds) }
    let resync := dset resync mn (now + 60)
    let server := (dget st.server_by_map mn).getD ""
    let st :=
      if server ≠ "" then
        { st with
          live_servers_by_map := addLiveServer st.live_servers_by_map
            mn server }
      else st
    let st := { st with
      eta_seconds_by_map := ddel st.eta_seconds_by_map mn }
    let st :=
      if dmem st.upcoming_by_map mn ∧ server ≠ "" then
        let filtered := ((dget st.upcoming_by_map mn).getD []).filter
          (fun p => p.1 ≠ server)
        if filtered.isEmpty then
          { st with upcoming_by_map := ddel st.upcoming_by_map mn }
        else
          { st with upcoming_by_map := dset st.upcoming_by_map mn filtered }
      else st
    if mn ∈ st.notified_live then ((st, resync), notifs)
    else
      (({ st with notified_live := sadd st.notified_live mn }, resync),
       notifs ++ [(mn, server)])
  else ((st, resync), notifs)

/-- The local live-expiry cleanup of lines 535-546: drop every live window
whose expiry has passed, together with its live servers, resync time and
notified-ledger entry (the ledger removal that enables re-notification). -/
def cleanupExpiredLive (now : Int) (st : WatcherState)
    (resync : List (Int × Int)) : WatcherState × List (Int × Int) :=
  let expired := (st.live_until_by_map.filter
    (fun p => p.2 ≤ now)).map Prod.fst
  expired.foldl (fun acc mn =>
    ({ acc.1 with
        live_until_by_map := ddel acc.1.live_until_by_map mn
        live_servers_by_map := ddel acc.1.live_servers_by_map mn
        notified_live := sdel acc.1.notified_live mn },
     ddel acc.2 mn)) (st, resync)

/-- Ascending insertion for strings (used to model Python's
`", ".join(sorted(servers))`). -/
def insSortedStr (x : String) : List String → List String
  | [] => [x]
  | y :: t => if y ≤ x then y :: insSortedStr x t else x :: y :: t

/-- `sorted(l)` for a list of strings. -/
def sortStrings (l : List String) : List String :=
  l.foldl (fun acc x => insSortedStr x acc) []

/-- The live-summary/notification loop of lines 549-562: collect watched
maps with an active live window and notify those not yet in the ledger
(scheduling their resync), joining their live servers sorted. -/
def noticeNewlyLive (watched : List Int) (now : Int) (st : WatcherState)
    (resync : List (Int × Int)) :
    ((WatcherState × List (Int × Int)) × List (Int × String)) × List Int :=
  watched.foldl (fun acc mn =>
    let st := acc.1.1.1
    let resync := acc.1.1.2
    let notifs := acc.1.2
    let alive := acc.2
    if liveActive st now mn then
      let alive := sadd alive mn
      if mn ∈ st.notified_live then (((st, resync), notifs), alive)
      else
        let servers := (dget st.live_servers_by_map mn).getD []
        let sstr := String.intercalate ", " (sortStrings servers)
        ((({ st with notified_live := sadd st.notified_live mn },
           dset resync mn (now + 60)), notifs ++ [(mn, sstr)]), alive)
    else (((st, resync), notifs), alive)) (((st, resync), []), [])

/-- `WatcherState.cleanup_expired_live_windows` (lines 186-196). -/
def WatcherState.cleanup_expired_live_windows (st : WatcherState)
    (now : Int) : WatcherState :=
  let expired := (st.live_until_by_map.filter
    (fun p => p.2 ≤ now)).map Prod.fst
  expired.foldl (fun st mn =>
    { st with
      live_until_by_map := ddel st.live_until_by_map mn
      live_servers_by_map := ddel st.live_servers_by_map mn }) st

/-- The state effect of `get_live_summary` (lines 198-230) as invoked from
`poll_once` via `format_summary([], False, all_live or None)`: expired
windows are cleaned up, and when a non-empty live set is passed, windows
not in it are dropped. -/
def liveSummaryPrune (st : WatcherState) (live_now : List Int)
    (now : Int) : WatcherState :=
  let st := st.cleanup_expired_live_windows now
  if live_now.isEmpty then st
  else
    let stale := (st.live_until_by_map.map Prod.fst).filter
      (fun mn => mn ∉ live_now)
    stale.foldl (fun st mn =>
      { st with
        live_until_by_map := ddel st.live_until_by_map mn
        live_servers_by_map := ddel st.live_servers_by_map mn }) st

/-- One tick of the state-transition pipeline of `KackyWatcher.poll_once`
(watcher_core.py lines 388-566): countdown by one second, promote
ETA-expired watched maps to live locally, apply a fetched snapshot when one
was taken this tick (`fetched = some rows`; the fetch-policy bookkeeping —
rate limiting, periodic timers, status messages — does not feed the state
and is outside this function), clean up expired live windows (clearing the
notified ledger), then emit notifications for newly-live watched maps and
prune the summary.  Returns the new `(state, live_map_resync_times)` and
the `(map, server)` notification list fired this tick, in order. -/
def pollStep (watched : List Int) (now : Int) (st : WatcherState)
    (resync : List (Int × Int)) (fetched : Option (List Row)) :
    (WatcherState × List (Int × Int)) × List (Int × String) :=
  let st := st.countdown_etas 1
  let expired := collectExpiredEtas watched st now
  let acc := expired.foldl (promoteExpired now) ((st, resync), [])
  let st := acc.1.1
  let resync := acc.1.2
  let notifs := acc.2
  let st :=
    match fetched with
    | some rows => (st.update_from_fetch rows watched now).1
    | none => st
  let p := cleanupExpiredLive now st resync
  let q := noticeNewlyLive watched now p.1 p.2
  let st := liveSummaryPrune q.1.1.1 q.2 now
  ((st, q.1.1.2), notifs ++ q.1.2)

/-- A state in which watched map `mn` has just counted down to an ETA of
zero (reached through `countdown_etas`, which floors at zero), predicted on
server `srv`, with no live window. -/
def preTransitionState (mn : Int) (srv : String) (dur : Int) : WatcherState :=
  { WatcherState.mkInitial dur with
    eta_seconds_by_map := [(mn, 0)]
    server_by_map := [(mn, srv)] }

/-- Map 42 one countdown second away from expiry, predicted on "Server 7",
whose seeded learned uptime is 780 s while the configured live duration is
600 s. -/
def learnedUptimeCexState : WatcherState :=
  { WatcherState.mkInitial 600 with
    eta_seconds_by_map := [(42, 1)]
    server_by_map := [(42, "Server 7")] }

/-- C3 counterexample: the local expiry transition does NOT use the learned
server uptime.  Map 42's predicted server "Server 7" has learned uptime
780 s, yet after its ETA expires locally at `now = 1000` the live window
expires at `1000 + 600` (the configured `live_duration_seconds`), not
`1000 + 780` as the claim states. -/
theorem local_transition_uses_live_duration_cex :
    learnedUptimeCexState.get_server_uptime "Server 7" = 780 ∧
    dget (pollStep [42] 1000 learnedUptimeCexState []
        none).1.1.live_until_by_map 42 = some (1000 + 600) ∧
    (1000 + 600 : Int) ≠ 1000 + 780 := by
  decide

/-- C3 amended: for a watched map whose tracked ETA has reached exactly 0
through repeated countdowns and which has no active live window, the local
expiry-transition tick promotes it to live with
`expires_at = now + live_duration_seconds` (the configured default live
duration, not the per-server learned uptime), removes its tracked ETA
entry, and fires the live-notification callback exactly once, with the
map's predicted server; the next tick, with no intervening no-longer-live
transition, fires no notification at all. -/
theorem local_eta_expiry_transition (mn : Int) (srv : String)
    (now dur : Int) (hdur : 1 < dur) :
    dget (pollStep [mn] now (preTransitionState mn srv dur) []
        none).1.1.live_until_by_map mn = some (now + dur) ∧
    dget (pollStep [mn] now (preTransitionState mn srv dur) []
        none).1.1.eta_seconds_by_map mn = none ∧
    (pollStep [mn] now (preTransitionState mn srv dur) [] none).2
        = [(mn, srv)] ∧
    (pollStep [mn] (now + 1)
        (pollStep [mn] now (preTransitionState mn srv dur) [] none).1.1
        (pollStep [mn] now (preTransitionState mn srv dur) [] none).1.2
        none).2 = [] := by
  have h1 : ¬(now + dur ≤ now) := by omega
  have h2 : now < now + dur := by omega
  have h3 : ¬(now + dur ≤ now + 1) := by omega
  have h4 : now + 1 < now + dur := by omega
  by_cases hsrv : srv = ""
  · subst hsrv
    simp [pollStep, preTransitionState, WatcherState.mkInitial,
      WatcherState.countdown_etas, mapValues, decFloor, collectExpiredEtas,
      promoteExpired, cleanupExpiredLive, noticeNewlyLive, liveSummaryPrune,
      WatcherState.cleanup_expired_live_windows, liveActive, dget, dmem,
      dset, ddel, sadd, sdel, addLiveServer, h1, h2, h3, h4]
  · simp [pollStep, preTransitionState, WatcherState.mkInitial,
      WatcherState.countdown_etas, mapValues, decFloor, collectExpiredEtas,
      promoteExpired, cleanupExpiredLive, noticeNewlyLive, liveSummaryPrune,
      WatcherState.cleanup_expired_live_windows, liveActive, dget, dmem,
      dset, ddel, sadd, sdel, addLiveServer, hsrv, h1, h2, h3, h4]

/-- Witness for C3 amended at map 42, "Server 7", now 1000, duration 600. -/
theorem local_eta_expiry_transition_witness :
    (1 : Int) < 600 ∧
    (pollStep [42] 1000 (preTransitionState 42 "Server 7" 600) [] none).2
      = [(42, "Server 7")] :=
  ⟨by decide,
   (local_eta_expiry_transition 42 "Server 7" 1000 600 (by decide)).2.2.1⟩

/-- Start of the C4 re-notification cycle: watched map 379 tracked at 2 s
on "Server 2", configured live duration 3 s (any positive duration; small
to keep the scenario short). -/
def cycleState0 : WatcherState :=
  { WatcherState.mkInitial 3 with
    eta_seconds_by_map := [(379, 2)]
    server_by_map := [(379, "Server 2")] }

/-- A snapshot that excludes map 379 entirely (another, unwatched map is
live). -/
def snapshotExcluding : List Row :=
  [{ map_number := "999", server := "Server 5", is_live := true,
     eta := "", remaining_time := "500", needs_retry := false }]

/-- A later snapshot giving map 379 a fresh 0:03 ETA on "Server 2". -/
def refetchRows : List Row :=
  [{ map_number := "379", server := "Server 2", is_live := false,
     eta := "0:03", remaining_time := "", needs_retry := false }]

/-- Run one poll tick of the cycle scenario, accumulating notifications. -/
def cycleStep (acc : (WatcherState × List (Int × Int)) × List (Int × String))
    (p : Int × Option (List Row)) :
    (WatcherState × List (Int × Int)) × List (Int × String) :=
  let r := pollStep [379] p.1 acc.1.1 acc.1.2 p.2
  (r.1, acc.2 ++ r.2)

/-- The nine ticks of the cycle: countdown to live (t=1), a snapshot that
excludes the live map (t=2, leaving its window untouched), natural window
expiry (t=4, leaving live state and clearing the ledger), a refetch giving
a fresh ETA (t=5), countdown to live again (t=8). -/
def cycleTicks : List (Int × Option (List Row)) :=
  [(0, none), (1, none), (2, some snapshotExcluding), (3, none), (4, none),
   (5, some refetchRows), (6, none), (7, none), (8, none)]

/-- The whole cycle run. -/
def cycleRun : (WatcherState × List (Int × Int)) × List (Int × String) :=
  cycleTicks.foldl cycleStep ((cycleState0, []), [])

/-- The cycle run up to and including the window-expiry tick (t=4). -/
def cycleMid : (WatcherState × List (Int × Int)) × List (Int × String) :=
  (cycleTicks.take 5).foldl cycleStep ((cycleState0, []), [])

/-- C4 (re-notification after cycle): watched map 379 goes live (one
notification), a snapshot then excludes it, its live window expires
naturally and is cleaned up — at which point it is out of live state and
out of the notified ledger simultaneously — and when it goes live again a
second notification fires: exactly two notifications over the whole
scenario, each `(379, "Server 2")`. -/
theorem live_cycle_renotification :
    cycleRun.2 = [(379, "Server 2"), (379, "Server 2")] ∧
    (List.take 2 cycleRun.2).length = 2 ∧
    cycleMid.2 = [(379, "Server 2")] ∧
    cycleMid.1.1.notified_live = [] ∧
    dget cycleMid.1.1.live_until_by_map 379 = none := by
  decide

/-- The fetch-decision-relevant fields of `KackyWatcher`
(watcher_core.py lines 25-64). -/
structure KackyWatcher where
  state : WatcherState
  watched : List Int
  watchlist_added : Bool
  initial_fetch_done : Bool
  live_map_resync_times : List (Int × Int)
  periodic_refetch_time : Int
  last_successful_fetch_time : Int
  deriving DecidableEq, Repr

/-- `KackyWatcher.should_fetch` (watcher_core.py lines 96-177).  Returns
the (possibly updated: the periodic-refetch timer may get scheduled)
watcher together with `(should_fetch, fetch_reason, triggering_maps)`; the
source never fills `triggering_maps`. -/
def KackyWatcher.should_fetch (w : KackyWatcher) (now_ts : Int) :
    KackyWatcher × Bool × Option String × List (Int × Int × String) :=
  if w.initial_fetch_done = false then (w, true, some "initial", [])
  else
    let new_maps := w.watched.filter (fun mn =>
      ¬ dmem w.state.eta_seconds_by_map mn
        ∧ ¬ dmem w.state.live_until_by_map mn)
    if w.watchlist_added = true ∧ ¬ new_maps.isEmpty then
      (w, true, some "watchlist_added", [])
    else
      let maps_needing_resync := (w.live_map_resync_times.filter
        (fun p => p.2 ≤ now_ts)).map Prod.fst
      if ¬ maps_needing_resync.isEmpty then
        (w, true, some "live_resync", [])
      else
        let has_unknown := ¬ new_maps.isEmpty
        let w :=
          if w.periodic_refetch_time = 0 then
            if has_unknown then
              { w with periodic_refetch_time := now_ts + 60 }
            else if 0 < w.last_successful_fetch_time then
              { w with periodic_refetch_time := now_ts + 300 }
            else w
          else w
        if 0 < w.periodic_refetch_time
            ∧ w.periodic_refetch_time ≤ now_ts then
          (w, true, some "periodic_refetch", [])
        else (w, false, none, [])

/-- `mn in live_until_by_map and live_until_by_map[mn] > now_ts` on a bare
dictionary (the legacy watcher keeps its dictionaries as locals). -/
def dictLiveNow (live_until : List (Int × Int)) (now mn : Int) : Bool :=
  match dget live_until mn with
  | none => false
  | some t => decide (now < t)

/-- The inline fetch decision of the legacy single-file watcher
(`kacky_watcher.main`, lines 224-268): determine whether any live window
expires within `threshold + 5`, compute the nearest positive ETA among
watched non-live maps (plus, for live watched maps, the first upcoming
entry at or below the threshold), and pick the fetch reason in priority
order initial / watchlist_added / live_window_expiring / eta_threshold.
Returns `(fetch_reason, nearest_eta, triggering_maps)`. -/
def legacyFetchDecision (threshold : Int)
    (eta_seconds_by_map : List (Int × Int))
    (upcoming_by_map : List (Int × List (String × Int)))
    (live_until_by_map : List (Int × Int))
    (server_by_map : List (Int × String))
    (watched : List Int) (watchlist_added : Bool) (now_ts : Int) :
    Option String × Int × List (Int × Int × String) :=
  let expiring_live := live_until_by_map.any
    (fun p => p.2 ≤ now_ts + threshold + 5)
  let c1 := eta_seconds_by_map.foldl (fun acc p =>
    if 0 < p.2 ∧ p.1 ∈ watched ∧
        dictLiveNow live_until_by_map now_ts p.1 = false then
      (acc.1 ++ [p.2],
       if p.2 ≤ threshold then
         acc.2 ++ [(p.1, p.2, (dget server_by_map p.1).getD "")]
       else acc.2)
    else acc) (([], []) : List Int × List (Int × Int × String))
  let c2 := upcoming_by_map.foldl (fun acc p =>
    if p.1 ∈ watched ∧ dictLiveNow live_until_by_map now_ts p.1 = true then
      match p.2.find? (fun q => decide (0 < q.2 ∧ q.2 ≤ threshold)) with
      | some q => (acc.1 ++ [q.2], acc.2 ++ [(p.1, q.2, q.1)])
      | none => acc
    else acc) c1
  let nearest :=
    match c2.1 with
    | [] => ((10 : Int) ^ 9)
    | x :: xs => xs.foldl min x
  let reason :=
    if eta_seconds_by_map.isEmpty then some "initial"
    else if watchlist_added then some "watchlist_added"
    else if expiring_live then some "live_window_expiring"
    else if nearest ≤ threshold then some "eta_threshold"
    else none
  (reason, nearest, c2.2)

/-- The watcher of the C5 scenario: map 7 watched and tracked at 65 s, not
live, initial fetch done 10 s ago, periodic refetch scheduled 300 s out. -/
def thresholdWatcher : KackyWatcher :=
  { state := { WatcherState.mkInitial 600 with
      eta_seconds_by_map := [(7, 65)]
      server_by_map := [(7, "Server 2")]
      upcoming_by_map := [(7, [("Server 2", 65)])] }
    watched := [7]
    watchlist_added := false
    initial_fetch_done := true
    live_map_resync_times := []
    periodic_refetch_time := 1300
    last_successful_fetch_time := 1000 }

/-- C5 counterexample: in the refactored core, after `countdown(10)` brings
watched map 7's ETA from 65 s to 55 s (≤ the 60 s threshold), the
fetch-decision function `should_fetch` still reports no fetch and no
`eta_threshold` reason on the next tick — the claim's second half fails on
`watcher_core.should_fetch`. -/
theorem fetch_threshold_cex :
    dget ((thresholdWatcher.state.countdown_etas 10).eta_seconds_by_map) 7
        = some 55 ∧
    (55 : Int) ≤ 60 ∧
    ({ thresholdWatcher with
        state := thresholdWatcher.state.countdown_etas 10
      }.should_fetch 1010).2.2.1 = none ∧
    (none : Option String) ≠ some "eta_threshold" := by
  decide

/-- C5 amended: the refactored fetch decision (`watcher_core.should_fetch`)
never reports an `eta_threshold` reason at all (its only reasons are
initial, watchlist_added, live_resync and periodic_refetch); the described
threshold behaviour belongs to the legacy watcher's inline fetch decision
(`kacky_watcher.main`): with threshold 60 s, watched map 7 at ETA 65 s and
not live yields no fetch reason, and after the legacy countdown by 10 s
(ETA 55 s) the decision reports `eta_threshold`, triggered by map 7 at 55 s
on "Server 2". -/
theorem fetch_threshold_behaviour :
    (∀ (w : KackyWatcher) (now : Int),
      (w.should_fetch now).2.2.1 ≠ some "eta_threshold") ∧
    (legacyFetchDecision 60 [(7, 65)] [(7, [("Server 2", 65)])] []
        [(7, "Server 2")] [7] false 1000).1 = none ∧
    (legacyFetchDecision 60 (mapValues (decFloor 10) [(7, 65)])
        (mapValues (mapValues (decFloor 10)) [(7, [("Server 2", 65)])]) []
        [(7, "Server 2")] [7] false 1020).1 = some "eta_threshold" ∧
    (legacyFetchDecision 60 (mapValues (decFloor 10) [(7, 65)])
        (mapValues (mapValues (decFloor 10)) [(7, [("Server 2", 65)])]) []
        [(7, "Server 2")] [7] false 1020).2.2
      = [(7, 55, "Server 2")] := by
  refine ⟨?_, by decide, by decide, by decide⟩
  intro w now
  unfold KackyWatcher.should_fetch
  dsimp only
  split
  · simp
  · split
    · simp
    · split
      · simp
      · split_ifs <;> simp
